import Mathlib

/-!
Shallow embedding of `solar-calculator-proxy`: two serverless HTTP handlers.

* `src/api/kajabi-tag.js` — the CRM tagger: an in-memory token cache
  (`getAccessToken`), contact find-or-create (`findContactByEmail`,
  `createContact`), tag attachment (`addTagToContact`) and the request
  handler wiring them together.
* `src/unnamed/part_000` — two variants of a webhook relay handler
  (the original, and a second one labelled "FIXED" in the source).

Upstream HTTP interactions are modelled as oracles fixed per invocation:
each upstream endpoint either yields a parsed successful payload or fails
(`none` covers both a rejected fetch and a `!response.ok` status followed
by `throw`, since the code treats both as a thrown exception).  Time is an
explicit `now : Int` in milliseconds, standing for `Date.now()`.  JavaScript
truthiness is modelled explicitly where the code relies on it.
-/

/-- A JSON-like value, covering every body the handlers construct. -/
inductive JVal where
  | bool : Bool → JVal
  | str : String → JVal
  | obj : List (String × JVal) → JVal

/-- An HTTP response as produced by the handlers: status code, the headers
set via `res.setHeader`, and the JSON body (`none` for `res.end()`). -/
structure Response where
  status : Nat
  headers : List (String × String)
  body : Option JVal

/-- The three CORS headers both handlers set. -/
def corsHeaders : List (String × String) :=
  [("Access-Control-Allow-Origin", "*"),
   ("Access-Control-Allow-Methods", "POST, OPTIONS"),
   ("Access-Control-Allow-Headers", "Content-Type")]

/-- Labels for the four kinds of upstream HTTP calls the tagger makes;
a handler run records the list of calls it performed, in order. -/
inductive UpCall where
  | token
  | search
  | create
  | tagAttach
deriving DecidableEq, Repr

/-- The module-level mutable cache of `kajabi-tag.js`:
`let cachedToken = null; let tokenExpiresAt = 0;`.
`cachedToken = none` is JS `null`; `tokenExpiresAt` is in ms. -/
structure TokenCache where
  cachedToken : Option String
  tokenExpiresAt : Int
deriving DecidableEq, Repr

/-- JS truthiness of `cachedToken` (`null` and the empty string are falsy). -/
def tokenTruthy : Option String → Bool
  | none => false
  | some s => s ≠ ""

/-- The guard `cachedToken && Date.now() < tokenExpiresAt`. -/
def cacheValid (cache : TokenCache) (now : Int) : Bool :=
  tokenTruthy cache.cachedToken && decide (now < cache.tokenExpiresAt)

/-- `getAccessToken` from `kajabi-tag.js`.  `tokenResp` is the oracle for the
OAuth token exchange: `some (access_token, expires_in)` when the fetch
resolves with an ok status and that JSON payload; `none` when the fetch
rejects or the response is `!ok` (both paths throw in the source).
Returns the thrown-or-returned token, the cache state after the call, and
the list of upstream calls performed.  On success the source stores
`tokenExpiresAt = Date.now() + (data.expires_in - 300) * 1000` (ms). -/
def getAccessToken (cache : TokenCache) (now : Int)
    (tokenResp : Option (String × Int)) :
    Except Unit String × TokenCache × List UpCall :=
  if cacheValid cache now then
    (Except.ok (cache.cachedToken.getD ""), cache, [])
  else
    match tokenResp with
    | none => (Except.error (), cache, [UpCall.token])
    | some (tok, lifeSec) =>
        (Except.ok tok,
         { cachedToken := some tok,
           tokenExpiresAt := now + (lifeSec - 300) * 1000 },
         [UpCall.token])

/-- JS `s.includes(c)` for a one-character needle, over the string's
characters (all strings compared by the handlers are ASCII-ranged). -/
def jsIncludesChar (s : String) (c : Char) : Bool :=
  s.data.contains c

/-- JS `s.toLowerCase()`, character-wise lowering. -/
def jsToLowerCase (s : String) : String :=
  ⟨s.data.map Char.toLower⟩

/-- A contact record as used by the handler: `contact.id` and
`contact.attributes.email` flattened. -/
structure Contact where
  id : String
  email : String
deriving DecidableEq, Repr

/-- The local exact-match step of `findContactByEmail`: the upstream fuzzy
search returned `contacts` (= `data.data`); the source runs
`data.data.find(c => c.attributes.email.toLowerCase() === email.toLowerCase())`
and returns `match || null`. -/
def findContactByEmail (contacts : List Contact) (email : String) :
    Option Contact :=
  contacts.find? (fun c => jsToLowerCase c.email == jsToLowerCase email)

/-- The environment-sourced tag-id configuration; each entry is
`process.env.KAJABI_TAG_ID_*`, which is `none` when unset (JS `undefined`). -/
structure Env where
  tagContractor : Option String
  tagDiy : Option String
  tagWaitlist : Option String
deriving DecidableEq, Repr

/-- Own-property names of `Object.prototype` in JavaScript.  `tagMap` is a
plain object literal, so `tagMap[tag]` also finds these inherited
properties; each of them is a function object (or, for `__proto__`,
`Object.prototype` itself), hence truthy. -/
def objectProtoProps : List String :=
  ["constructor", "hasOwnProperty", "isPrototypeOf", "propertyIsEnumerable",
   "toLocaleString", "toString", "valueOf", "__proto__",
   "__defineGetter__", "__defineSetter__", "__lookupGetter__",
   "__lookupSetter__"]

/-- The value `tagMap[key]` can take: a configured env string (possibly
`undefined`), or a truthy function/object inherited from
`Object.prototype`. -/
inductive TagIdVal where
  | envStr : Option String → TagIdVal
  | protoObj : String → TagIdVal
deriving DecidableEq, Repr

/-- `tagMap[key]` for the object literal
`{contractor: ..., diy: ..., waitlist: ...}`; `none` is JS `undefined`. -/
def tagMapGet (env : Env) (key : String) : Option TagIdVal :=
  if key = "contractor" then some (TagIdVal.envStr env.tagContractor)
  else if key = "diy" then some (TagIdVal.envStr env.tagDiy)
  else if key = "waitlist" then some (TagIdVal.envStr env.tagWaitlist)
  else if key ∈ objectProtoProps then some (TagIdVal.protoObj key)
  else none

/-- JS truthiness of the looked-up `tagId` (the `if (!tagId)` check):
`undefined`, a missing env var and the empty string are falsy; inherited
function objects are truthy. -/
def tagIdTruthy : Option TagIdVal → Bool
  | none => false
  | some (TagIdVal.envStr none) => false
  | some (TagIdVal.envStr (some s)) => s ≠ ""
  | some (TagIdVal.protoObj _) => true

/-- A field of the request body as a JS value: absent/`undefined`, a string,
or a truthy-or-falsy non-string primitive (represented by a number, which
has no `.includes` method). -/
inductive JSField where
  | undef
  | str : String → JSField
  | num : Int → JSField
deriving DecidableEq, Repr

/-- The property key JS uses for `tagMap[tag]` (keys are stringified). -/
def jsPropKey : JSField → String
  | JSField.undef => "undefined"
  | JSField.str s => s
  | JSField.num n => toString n

/-- The destructured request body `{email, tag}` of the tagger. -/
structure ReqBody where
  email : JSField
  tag : JSField
deriving DecidableEq, Repr

/-- Oracles for the tagger's four upstream endpoints, fixed per invocation.
`none` always means the call threw (fetch rejection or `!response.ok`).
`searchResp` is the parsed `data.data` list; `createResp` is the parsed
`created.data` contact; `tagResp` is the tag-attach success. -/
structure Upstream where
  tokenResp : Option (String × Int)
  searchResp : Option (List Contact)
  createResp : Option Contact
  tagResp : Option Unit
deriving Repr

/-- `res.status(500).json({ ok: false, error: 'Server error' })`. -/
def serverErrorResp (headers : List (String × String)) : Response :=
  ⟨500, headers,
   some (JVal.obj [("ok", JVal.bool false), ("error", JVal.str "Server error")])⟩

/-- `res.status(400).json({ ok: false, error: msg })`. -/
def badRequestResp (headers : List (String × String)) (msg : String) : Response :=
  ⟨400, headers,
   some (JVal.obj [("ok", JVal.bool false), ("error", JVal.str msg)])⟩

/-- `res.status(200).json({ ok: true })`. -/
def okResp (headers : List (String × String)) : Response :=
  ⟨200, headers, some (JVal.obj [("ok", JVal.bool true)])⟩

/-- The tagger's `res.status(405).json({ ok: false, error: 'Method not allowed' })`;
it runs before any `setHeader`, so it carries no headers. -/
def methodNotAllowedKajabi : Response :=
  ⟨405, [],
   some (JVal.obj [("ok", JVal.bool false),
                   ("error", JVal.str "Method not allowed")])⟩

/-- Step 4 of the tagger (`addTagToContact` on `contact.id` then
`res.status(200).json({ ok: true })`); the contact id only parametrises the
upstream URL, which the oracle abstracts. -/
def tagStep (cache : TokenCache) (calls : List UpCall) (up : Upstream)
    (_cid : String) : Response × TokenCache × List UpCall :=
  match up.tagResp with
  | none => (serverErrorResp corsHeaders, cache, calls ++ [UpCall.tagAttach])
  | some _ => (okResp corsHeaders, cache, calls ++ [UpCall.tagAttach])

/-- The exported `handler` of `kajabi-tag.js`, with the source's control flow
kept verbatim: the `method !== 'POST'` check runs first (so the later
`method === 'OPTIONS'` branch is unreachable), then the three CORS headers
are set, then the try block: destructure the body (throws when the body is
absent), validate the email (`!email || !email.includes('@')`, where
`.includes` on a truthy non-string throws), map the tag through `tagMap`,
then token / search / create-if-absent / attach-tag, any throw landing in
the catch as a 500.  Returns the response, the token cache after the run,
and the upstream calls performed, in order. -/
def kajabiHandler (env : Env) (cache : TokenCache) (now : Int) (up : Upstream)
    (method : String) (body : Option ReqBody) :
    Response × TokenCache × List UpCall :=
  if method ≠ "POST" then (methodNotAllowedKajabi, cache, [])
  else if method = "OPTIONS" then (⟨200, corsHeaders, none⟩, cache, [])
  else
    match body with
    | none => (serverErrorResp corsHeaders, cache, [])
    | some b =>
      match b.email with
      | JSField.undef => (badRequestResp corsHeaders "Valid email required", cache, [])
      | JSField.num n =>
          if n = 0 then (badRequestResp corsHeaders "Valid email required", cache, [])
          else (serverErrorResp corsHeaders, cache, [])
      | JSField.str email =>
        if email = "" || !(jsIncludesChar email '@') then
          (badRequestResp corsHeaders "Valid email required", cache, [])
        else if !(tagIdTruthy (tagMapGet env (jsPropKey b.tag))) then
          (badRequestResp corsHeaders
            "Invalid tag. Must be: contractor, diy, or waitlist", cache, [])
        else
          match getAccessToken cache now up.tokenResp with
          | (Except.error _, cache2, calls) =>
              (serverErrorResp corsHeaders, cache2, calls)
          | (Except.ok _, cache2, calls) =>
            match up.searchResp with
            | none => (serverErrorResp corsHeaders, cache2, calls ++ [UpCall.search])
            | some contacts =>
              match findContactByEmail contacts email with
              | some contact =>
                  tagStep cache2 (calls ++ [UpCall.search]) up contact.id
              | none =>
                match up.createResp with
                | none =>
                    (serverErrorResp corsHeaders, cache2,
                     calls ++ [UpCall.search, UpCall.create])
                | some created =>
                    tagStep cache2 (calls ++ [UpCall.search, UpCall.create])
                      up created.id

/-- Outcome of the relay's single upstream fetch: resolved with some HTTP
status and response text, or rejected with an error message. -/
inductive FetchOutcome where
  | resolved : Nat → String → FetchOutcome
  | rejected : String → FetchOutcome
deriving DecidableEq, Repr

/-- The original relay variant of `src/unnamed/part_000`, control flow kept
verbatim: `method !== 'POST'` → 405 before any header is set (so the
preflight branch is unreachable), else set CORS headers, then the try
block: fetch, `response.text()`, `JSON.parse` (abstracted as the `parse`
argument, `none` when it throws) with the `{message: text}` fallback,
always status 200; a thrown fetch yields 500 `{error, details}`.  The
upstream status is never consulted. -/
def relayOriginal (parse : String → Option JVal) (method : String)
    (up : FetchOutcome) : Response :=
  if method ≠ "POST" then
    ⟨405, [], some (JVal.obj [("error", JVal.str "Method not allowed")])⟩
  else if method = "OPTIONS" then ⟨200, corsHeaders, none⟩
  else
    match up with
    | FetchOutcome.resolved _ text =>
        ⟨200, corsHeaders,
         some (match parse text with
               | some j => j
               | none => JVal.obj [("message", JVal.str text)])⟩
    | FetchOutcome.rejected msg =>
        ⟨500, corsHeaders,
         some (JVal.obj [("error", JVal.str "Failed to connect to Make.com"),
                         ("details", JVal.str msg)])⟩

/-- The "FIXED" relay variant of `src/unnamed/part_000`: the CORS headers are
set first, then `OPTIONS` → 200 empty, then `method !== 'POST'` → 405
(now carrying the headers), then the same try block as the original. -/
def relayFixed (parse : String → Option JVal) (method : String)
    (up : FetchOutcome) : Response :=
  if method = "OPTIONS" then ⟨200, corsHeaders, none⟩
  else if method ≠ "POST" then
    ⟨405, corsHeaders, some (JVal.obj [("error", JVal.str "Method not allowed")])⟩
  else
    match up with
    | FetchOutcome.resolved _ text =>
        ⟨200, corsHeaders,
         some (match parse text with
               | some j => j
               | none => JVal.obj [("message", JVal.str text)])⟩
    | FetchOutcome.rejected msg =>
        ⟨500, corsHeaders,
         some (JVal.obj [("error", JVal.str "Failed to connect to Make.com"),
                         ("details", JVal.str msg)])⟩

/-- Whether the four upstream steps the tagger performs all succeed, for a
given cache state, clock and oracle: the token step (a cache hit or a
successful exchange), the search, the create when no exact match was
found, and the tag attach. -/
def stepsOk (cache : TokenCache) (now : Int) (up : Upstream)
    (email : String) : Bool :=
  (match (getAccessToken cache now up.tokenResp).1 with
   | Except.ok _ => true
   | Except.error _ => false) &&
  (match up.searchResp with
   | none => false
   | some contacts =>
     (match findContactByEmail contacts email with
      | some _ => true
      | none => up.createResp.isSome) && up.tagResp.isSome)

/-! ## Theorems -/

/-- C1 — Token cache: with a truthy cached token and the clock before the
stored expiry, `getAccessToken` returns the cached token and performs zero
upstream calls; when the stored expiry has passed it performs exactly one
upstream token exchange, and on a successful exchange it stores the new
token with expiry `now + (expires_in − 300) * 1000` ms (i.e. now plus the
upstream-reported lifetime minus 300 seconds) and returns that stored
token. -/
theorem getAccessToken_cache_correct (cache : TokenCache) (now : Int)
    (tokenResp : Option (String × Int)) :
    (∀ t, cache.cachedToken = some t → t ≠ "" → now < cache.tokenExpiresAt →
       getAccessToken cache now tokenResp = (Except.ok t, cache, [])) ∧
    (cache.tokenExpiresAt ≤ now →
       (getAccessToken cache now tokenResp).2.2 = [UpCall.token] ∧
       ∀ tok lifeSec, tokenResp = some (tok, lifeSec) →
         getAccessToken cache now tokenResp =
           (Except.ok tok,
            ⟨some tok, now + (lifeSec - 300) * 1000⟩,
            [UpCall.token])) := by
  constructor
  · intro t ht hne hlt
    simp [getAccessToken, cacheValid, tokenTruthy, ht, hne, hlt]
  · intro hle
    have hcv : cacheValid cache now = false := by
      simp [cacheValid, not_lt_of_le hle]
    constructor
    · cases tokenResp with
      | none => simp [getAccessToken, hcv]
      | some p => cases p with
        | mk tok lifeSec => simp [getAccessToken, hcv]
    · intro tok lifeSec hresp
      subst hresp
      simp [getAccessToken, hcv]

/-- Witness for C1: a cache hit at `now = 500` with expiry `1000` returns the
cached token with no upstream call; an expired cache at `now = 2000`
refreshed by a successful exchange of lifetime `3600` s stores expiry
`2000 + 3300 * 1000` ms and returns the new token. -/
theorem getAccessToken_cache_correct_witness :
    getAccessToken ⟨some "t", 1000⟩ 500 none =
      (Except.ok "t", ⟨some "t", 1000⟩, []) ∧
    getAccessToken ⟨some "t", 1000⟩ 2000 (some ("n", 3600)) =
      (Except.ok "n", ⟨some "n", 2000 + (3600 - 300) * 1000⟩,
       [UpCall.token]) :=
  ⟨(getAccessToken_cache_correct ⟨some "t", 1000⟩ 500 none).1 "t" rfl
      (by decide) (by decide),
   ((getAccessToken_cache_correct ⟨some "t", 1000⟩ 2000
        (some ("n", 3600))).2 (by decide)).2 "n" 3600 rfl⟩

/-- C9 — Token cache atomicity: when the cache guard fails and the upstream
token exchange fails (`none` covers both a `!response.ok` status and a
thrown network error, which the source turns into a throw before any
assignment), `getAccessToken` throws and leaves both `cachedToken` and
`tokenExpiresAt` exactly as they were. -/
theorem token_failure_preserves_cache (cache : TokenCache) (now : Int)
    (h : cacheValid cache now = false) :
    getAccessToken cache now none =
      (Except.error (), cache, [UpCall.token]) := by
  simp [getAccessToken, h]

/-- Witness for C9: an expired cache slot survives a failed exchange
untouched. -/
theorem token_failure_preserves_cache_witness :
    cacheValid ⟨some "t", 1000⟩ 2000 = false ∧
    getAccessToken ⟨some "t", 1000⟩ 2000 none =
      (Except.error (), ⟨some "t", 1000⟩, [UpCall.token]) :=
  ⟨by decide, token_failure_preserves_cache ⟨some "t", 1000⟩ 2000 (by decide)⟩

/-- C3 — contrary to the claim, an `OPTIONS` request reaches neither
handler's preflight branch: in both the tagger and the original relay the
`method !== 'POST'` check runs first, so `OPTIONS` yields a 405
"Method not allowed" with no CORS headers and no upstream calls; the
dedicated `method === 'OPTIONS'` branch below it is unreachable.  (The
"FIXED" relay variant in the same file reorders the checks precisely to
repair this.) -/
theorem options_request_gets_405 (env : Env) (cache : TokenCache) (now : Int)
    (up : Upstream) (body : Option ReqBody) (parse : String → Option JVal)
    (fo : FetchOutcome) :
    kajabiHandler env cache now up "OPTIONS" body =
      (methodNotAllowedKajabi, cache, []) ∧
    relayOriginal parse "OPTIONS" fo =
      ⟨405, [], some (JVal.obj [("error", JVal.str "Method not allowed")])⟩ :=
  ⟨rfl, rfl⟩

/-- C5 — contrary to the claim, a tag that is not one of the recognized
names can pass validation: `tagMap` is a plain object literal, so
`tagMap["constructor"]` finds the truthy `Object.prototype.constructor`
inherited property, `if (!tagId)` does not fire, and the handler proceeds
to make all four upstream calls (here all succeeding, yielding 200)
instead of answering 400 with no upstream calls. -/
theorem tag_constructor_bypasses_validation :
    "constructor" ∉ ["contractor", "diy", "waitlist"] ∧
    kajabiHandler ⟨some "T1", some "T2", some "T3"⟩ ⟨none, 0⟩ 0
        ⟨some ("tok", 3600), some [], some ⟨"cid", "a@b.com"⟩, some ()⟩
        "POST" (some ⟨JSField.str "a@b.com", JSField.str "constructor"⟩) =
      (okResp corsHeaders,
       ⟨some "tok", 0 + (3600 - 300) * 1000⟩,
       [UpCall.token, UpCall.search, UpCall.create, UpCall.tagAttach]) :=
  ⟨by decide, rfl⟩

/-- `getAccessToken` performs either zero upstream calls (cache hit) or
exactly the one token-exchange call. -/
theorem getAccessToken_calls (cache : TokenCache) (now : Int)
    (tokenResp : Option (String × Int)) :
    (getAccessToken cache now tokenResp).2.2 = [] ∨
    (getAccessToken cache now tokenResp).2.2 = [UpCall.token] := by
  unfold getAccessToken
  split
  · exact Or.inl rfl
  · cases tokenResp with
    | none => exact Or.inr rfl
    | some p => cases p with
      | mk tok lifeSec => exact Or.inr rfl

/-- C2 — Contact resolution: the local filter selects a contact iff some
contact returned by the fuzzy search has an email equal to the input
email after `toLowerCase` on both sides (exact, so a fuzzy hit like
`anne@x.com` for `anne2@x.com` is no match); and on a validated request
whose token and search steps succeed, the handler issues the
contact-creation call iff no such exact match exists. -/
theorem contact_resolution_exact_match (env : Env) (cache : TokenCache)
    (now : Int) (up : Upstream) (email : String) (tagF : JSField)
    (contacts : List Contact)
    (hne : email ≠ "") (hat : jsIncludesChar email '@' = true)
    (htag : tagIdTruthy (tagMapGet env (jsPropKey tagF)) = true)
    (tok : String) (cache2 : TokenCache) (calls : List UpCall)
    (htok : getAccessToken cache now up.tokenResp =
      (Except.ok tok, cache2, calls))
    (hsearch : up.searchResp = some contacts) :
    ((findContactByEmail contacts email).isSome ↔
      ∃ c ∈ contacts, jsToLowerCase c.email = jsToLowerCase email) ∧
    (UpCall.create ∈
        (kajabiHandler env cache now up "POST"
          (some ⟨JSField.str email, tagF⟩)).2.2 ↔
      ¬ ∃ c ∈ contacts, jsToLowerCase c.email = jsToLowerCase email) := by
  have hfind : (findContactByEmail contacts email).isSome ↔
      ∃ c ∈ contacts, jsToLowerCase c.email = jsToLowerCase email := by
    simp [findContactByEmail, List.find?_isSome]
  have hcalls : calls = [] ∨ calls = [UpCall.token] := by
    have h := getAccessToken_calls cache now up.tokenResp
    rw [htok] at h
    exact h
  refine ⟨hfind, ?_⟩
  cases hfc : findContactByEmail contacts email with
  | some contact =>
      have hmatch : ∃ c ∈ contacts, jsToLowerCase c.email = jsToLowerCase email :=
        hfind.1 (by simp [hfc])
      cases htr : up.tagResp <;>
        rcases hcalls with rfl | rfl <;>
        simp [kajabiHandler, hne, hat, htag, htok, hsearch, hfc, htr, tagStep,
          hmatch]
  | none =>
      have hnomatch :
          ¬ ∃ c ∈ contacts, jsToLowerCase c.email = jsToLowerCase email := by
        rw [← hfind, hfc]
        simp
      cases hcr : up.createResp with
      | none =>
          simp [kajabiHandler, hne, hat, htag, htok, hsearch, hfc, hcr, hnomatch]
      | some created =>
          cases htr : up.tagResp <;>
            simp [kajabiHandler, hne, hat, htag, htok, hsearch, hfc, hcr, htr,
              tagStep, hnomatch]

/-- Witness for C2: searching `anne2@x.com` when the fuzzy search returned
only `anne@x.com` selects nothing and the handler performs the
contact-creation call. -/
theorem contact_resolution_exact_match_witness :
    ((findContactByEmail [⟨"i", "anne@x.com"⟩] "anne2@x.com").isSome ↔
      ∃ c ∈ [(⟨"i", "anne@x.com"⟩ : Contact)],
        jsToLowerCase c.email = jsToLowerCase "anne2@x.com") ∧
    (UpCall.create ∈
        (kajabiHandler ⟨some "T1", some "T2", some "T3"⟩ ⟨none, 0⟩ 0
          ⟨some ("tok", 3600), some [⟨"i", "anne@x.com"⟩],
           some ⟨"cid", "anne2@x.com"⟩, some ()⟩
          "POST" (some ⟨JSField.str "anne2@x.com", JSField.str "diy"⟩)).2.2 ↔
      ¬ ∃ c ∈ [(⟨"i", "anne@x.com"⟩ : Contact)],
        jsToLowerCase c.email = jsToLowerCase "anne2@x.com") :=
  contact_resolution_exact_match ⟨some "T1", some "T2", some "T3"⟩ ⟨none, 0⟩ 0
    ⟨some ("tok", 3600), some [⟨"i", "anne@x.com"⟩],
     some ⟨"cid", "anne2@x.com"⟩, some ()⟩
    "anne2@x.com" (JSField.str "diy") [⟨"i", "anne@x.com"⟩]
    (by decide) (by decide) (by decide)
    "tok" ⟨some "tok", 0 + (3600 - 300) * 1000⟩ [UpCall.token] rfl rfl

/-- C4 — Webhook relay, POST: when the upstream fetch resolves, the relay
answers 200 with the upstream body parsed as JSON, falling back to
`{message: <raw text>}` when parsing throws; the upstream's own status
code never affects the relay's response; when the fetch itself throws,
the relay answers 500 with `{error, details}`.  In particular non-JSON
upstream text "OK" becomes `{message: "OK"}` under status 200. -/
theorem relay_post_behavior (parse : String → Option JVal) (s s2 : Nat)
    (text msg : String) :
    relayOriginal parse "POST" (FetchOutcome.resolved s text) =
      ⟨200, corsHeaders,
       some (match parse text with
             | some j => j
             | none => JVal.obj [("message", JVal.str text)])⟩ ∧
    relayOriginal parse "POST" (FetchOutcome.resolved s text) =
      relayOriginal parse "POST" (FetchOutcome.resolved s2 text) ∧
    relayOriginal parse "POST" (FetchOutcome.rejected msg) =
      ⟨500, corsHeaders,
       some (JVal.obj [("error", JVal.str "Failed to connect to Make.com"),
                       ("details", JVal.str msg)])⟩ ∧
    (parse "OK" = none →
      relayOriginal parse "POST" (FetchOutcome.resolved s "OK") =
        ⟨200, corsHeaders,
         some (JVal.obj [("message", JVal.str "OK")])⟩) := by
  refine ⟨rfl, rfl, rfl, ?_⟩
  intro h
  simp [relayOriginal, h]

/-- Witness for C4: a parse function on which `JSON.parse("OK")` throws
makes the relay wrap the raw text, ignoring the upstream 404 status. -/
theorem relay_post_behavior_witness :
    relayOriginal (fun _ => none) "POST" (FetchOutcome.resolved 404 "OK") =
      ⟨200, corsHeaders, some (JVal.obj [("message", JVal.str "OK")])⟩ :=
  (relay_post_behavior (fun _ => none) 404 200 "OK" "boom").2.2.2 rfl

/-- C8 counterexample — the two relay variants do NOT produce identical
responses on a non-POST/non-OPTIONS request: on `GET` both answer 405
with the same body, but the original sets no headers while the FIXED
variant has already set the three CORS headers. -/
theorem relay_variants_differ_on_get :
    relayOriginal (fun _ => none) "GET" (FetchOutcome.resolved 200 "") ≠
      relayFixed (fun _ => none) "GET" (FetchOutcome.resolved 200 "") := by
  intro h
  have h2 := congrArg Response.headers h
  simp [relayOriginal, relayFixed, corsHeaders] at h2

/-- C8 amended — the two relay variants produce identical responses for
every POST request; on a request that is neither POST nor OPTIONS both
answer 405 with the same body, differing only in that the FIXED variant
carries the CORS headers; and they differ on OPTIONS (original: the same
bare 405, its preflight branch being unreachable; FIXED: 200 empty with
CORS headers). -/
theorem relay_variants_agreement (parse : String → Option JVal)
    (method : String) (up : FetchOutcome) :
    relayOriginal parse "POST" up = relayFixed parse "POST" up ∧
    (method ≠ "POST" → method ≠ "OPTIONS" →
      relayOriginal parse method up =
        ⟨405, [], some (JVal.obj [("error", JVal.str "Method not allowed")])⟩ ∧
      relayFixed parse method up =
        ⟨405, corsHeaders,
         some (JVal.obj [("error", JVal.str "Method not allowed")])⟩) ∧
    relayOriginal parse "OPTIONS" up =
      ⟨405, [], some (JVal.obj [("error", JVal.str "Method not allowed")])⟩ ∧
    relayFixed parse "OPTIONS" up = ⟨200, corsHeaders, none⟩ := by
  refine ⟨?_, ?_, rfl, rfl⟩
  · cases up <;> rfl
  · intro h1 h2
    constructor <;> simp [relayOriginal, relayFixed, h1, h2]

/-- Witness for C8 (amended): the agreement theorem applied to a `GET`
request with the upstream rejecting. -/
theorem relay_variants_agreement_witness :
    relayOriginal (fun _ => none) "GET" (FetchOutcome.rejected "x") =
      ⟨405, [], some (JVal.obj [("error", JVal.str "Method not allowed")])⟩ ∧
    relayFixed (fun _ => none) "GET" (FetchOutcome.rejected "x") =
      ⟨405, corsHeaders,
       some (JVal.obj [("error", JVal.str "Method not allowed")])⟩ :=
  (relay_variants_agreement (fun _ => none) "GET"
    (FetchOutcome.rejected "x")).2.1 (by decide) (by decide)

/-- C10 — a POST whose body is absent makes the destructuring
`const {email, tag} = req.body` throw, and a truthy non-string email
makes `email.includes('@')` throw; both throws land in the catch, so the
handler answers 500 `{ok:false, error:'Server error'}` (not 400), makes
no upstream calls, leaves the cache untouched, and propagates no
exception (the embedded handler is total and every throw-path is mapped
to the catch branch). -/
theorem weird_body_yields_500 (env : Env) (cache : TokenCache) (now : Int)
    (up : Upstream) :
    kajabiHandler env cache now up "POST" none =
      (serverErrorResp corsHeaders, cache, []) ∧
    ∀ n tagF, n ≠ 0 →
      kajabiHandler env cache now up "POST" (some ⟨JSField.num n, tagF⟩) =
        (serverErrorResp corsHeaders, cache, []) := by
  refine ⟨rfl, ?_⟩
  intro n tagF hn
  simp [kajabiHandler, hn]

/-- Witness for C10: body absent, and the truthy non-string email `5`. -/
theorem weird_body_yields_500_witness :
    kajabiHandler ⟨none, none, none⟩ ⟨none, 0⟩ 0 ⟨none, none, none, none⟩
        "POST" none =
      (serverErrorResp corsHeaders, ⟨none, 0⟩, []) ∧
    kajabiHandler ⟨none, none, none⟩ ⟨none, 0⟩ 0 ⟨none, none, none, none⟩
        "POST" (some ⟨JSField.num 5, JSField.str "diy"⟩) =
      (serverErrorResp corsHeaders, ⟨none, 0⟩, []) :=
  ⟨(weird_body_yields_500 ⟨none, none, none⟩ ⟨none, 0⟩ 0
      ⟨none, none, none, none⟩).1,
   (weird_body_yields_500 ⟨none, none, none⟩ ⟨none, 0⟩ 0
      ⟨none, none, none, none⟩).2 5 (JSField.str "diy") (by decide)⟩

/-- C6 — Email validation: for a POST request carrying a body whose email
field is absent or a string (truthy non-string email values throw and are
the subject of the C10 theorem), the response is 400
`{ok:false, error:"Valid email required"}` iff the email is missing or is
a string not containing `@` (the source's `!email || !email.includes('@')`:
the empty string is falsy and also contains no `@`). -/
theorem email_validation_iff (env : Env) (cache : TokenCache) (now : Int)
    (up : Upstream) (b : ReqBody)
    (hdom : b.email = JSField.undef ∨ ∃ s, b.email = JSField.str s) :
    (kajabiHandler env cache now up "POST" (some b)).1 =
        badRequestResp corsHeaders "Valid email required" ↔
      (b.email = JSField.undef ∨
       ∃ s, b.email = JSField.str s ∧ jsIncludesChar s '@' = false) := by
  rcases hdom with h | ⟨s, h⟩
  · simp [kajabiHandler, h]
  · cases hs : jsIncludesChar s '@' with
    | false => simp [kajabiHandler, h, hs]
    | true =>
      have hne : s ≠ "" := by
        intro he
        rw [he] at hs
        simp [jsIncludesChar] at hs
      cases htag : tagIdTruthy (tagMapGet env (jsPropKey b.tag)) with
      | false =>
          simp [kajabiHandler, h, hs, hne, htag, badRequestResp]
      | true =>
        rcases hga : getAccessToken cache now up.tokenResp with ⟨r, cache2, calls⟩
        cases r with
        | error e =>
            simp [kajabiHandler, h, hs, hne, htag, hga, serverErrorResp,
              badRequestResp]
        | ok tok =>
          cases hsr : up.searchResp with
          | none =>
              simp [kajabiHandler, h, hs, hne, htag, hga, hsr, serverErrorResp,
                badRequestResp]
          | some contacts =>
            cases hfc : findContactByEmail contacts s with
            | some contact =>
                cases htr : up.tagResp <;>
                  simp [kajabiHandler, h, hs, hne, htag, hga, hsr, hfc, htr,
                    tagStep, serverErrorResp, badRequestResp, okResp]
            | none =>
              cases hcr : up.createResp with
              | none =>
                  simp [kajabiHandler, h, hs, hne, htag, hga, hsr, hfc, hcr,
                    serverErrorResp, badRequestResp]
              | some created =>
                  cases htr : up.tagResp <;>
                    simp [kajabiHandler, h, hs, hne, htag, hga, hsr, hfc, hcr,
                      htr, tagStep, serverErrorResp, badRequestResp, okResp]

/-- Witness for C6: a body with no email field gets the 400
"Valid email required" answer. -/
theorem email_validation_iff_witness :
    (kajabiHandler ⟨none, none, none⟩ ⟨none, 0⟩ 0 ⟨none, none, none, none⟩
        "POST" (some ⟨JSField.undef, JSField.str "diy"⟩)).1 =
        badRequestResp corsHeaders "Valid email required" ↔
      ((⟨JSField.undef, JSField.str "diy"⟩ : ReqBody).email = JSField.undef ∨
       ∃ s, (⟨JSField.undef, JSField.str "diy"⟩ : ReqBody).email =
          JSField.str s ∧ jsIncludesChar s '@' = false) :=
  email_validation_iff ⟨none, none, none⟩ ⟨none, 0⟩ 0 ⟨none, none, none, none⟩
    ⟨JSField.undef, JSField.str "diy"⟩ (Or.inl rfl)

/-- C7 — All-or-nothing: on a POST request that passes both validations,
the handler answers 200 `{ok:true}` iff the steps it performs (token,
search, create when no exact match, tag attach) all succeed, and any step
failure yields exactly the one generic 500
`{ok:false, error:'Server error'}` — so a run where the contact was
created but the tag attach failed is indistinguishable from any other
failure. -/
theorem tagger_all_or_nothing (env : Env) (cache : TokenCache) (now : Int)
    (up : Upstream) (email : String) (tagF : JSField)
    (hne : email ≠ "") (hat : jsIncludesChar email '@' = true)
    (htag : tagIdTruthy (tagMapGet env (jsPropKey tagF)) = true) :
    ((kajabiHandler env cache now up "POST"
        (some ⟨JSField.str email, tagF⟩)).1 = okResp corsHeaders ↔
      stepsOk cache now up email = true) ∧
    (stepsOk cache now up email = false →
      (kajabiHandler env cache now up "POST"
        (some ⟨JSField.str email, tagF⟩)).1 = serverErrorResp corsHeaders) := by
  rcases hga : getAccessToken cache now up.tokenResp with ⟨r, cache2, calls⟩
  cases r with
  | error e =>
      constructor <;>
        simp [kajabiHandler, stepsOk, hne, hat, htag, hga, serverErrorResp,
          okResp]
  | ok tok =>
    cases hsr : up.searchResp with
    | none =>
        constructor <;>
          simp [kajabiHandler, stepsOk, hne, hat, htag, hga, hsr,
            serverErrorResp, okResp]
    | some contacts =>
      cases hfc : findContactByEmail contacts email with
      | some contact =>
          cases htr : up.tagResp <;>
            (constructor <;>
              simp [kajabiHandler, stepsOk, hne, hat, htag, hga, hsr, hfc, htr,
                tagStep, serverErrorResp, okResp])
      | none =>
        cases hcr : up.createResp with
        | none =>
            cases htr : up.tagResp <;>
              (constructor <;>
                simp [kajabiHandler, stepsOk, hne, hat, htag, hga, hsr, hfc,
                  hcr, htr, tagStep, serverErrorResp, okResp])
        | some created =>
            cases htr : up.tagResp <;>
              (constructor <;>
                simp [kajabiHandler, stepsOk, hne, hat, htag, hga, hsr, hfc,
                  hcr, htr, tagStep, serverErrorResp, okResp])

/-- Witness for C7: a fully successful run answers 200 `{ok:true}`, and a
run where the contact is found but the tag attach fails answers the
generic 500. -/
theorem tagger_all_or_nothing_witness :
    ((kajabiHandler ⟨some "T1", some "T2", some "T3"⟩ ⟨none, 0⟩ 0
        ⟨some ("tok", 3600), some [⟨"cid", "a@b.com"⟩], none, some ()⟩
        "POST" (some ⟨JSField.str "a@b.com", JSField.str "diy"⟩)).1 =
        okResp corsHeaders ↔
      stepsOk ⟨none, 0⟩ 0
        ⟨some ("tok", 3600), some [⟨"cid", "a@b.com"⟩], none, some ()⟩
        "a@b.com" = true) ∧
    (kajabiHandler ⟨some "T1", some "T2", some "T3"⟩ ⟨none, 0⟩ 0
        ⟨some ("tok", 3600), some [⟨"cid", "a@b.com"⟩], none, none⟩
        "POST" (some ⟨JSField.str "a@b.com", JSField.str "diy"⟩)).1 =
      serverErrorResp corsHeaders :=
  ⟨(tagger_all_or_nothing ⟨some "T1", some "T2", some "T3"⟩ ⟨none, 0⟩ 0
      ⟨some ("tok", 3600), some [⟨"cid", "a@b.com"⟩], none, some ()⟩
      "a@b.com" (JSField.str "diy") (by decide) (by decide) (by decide)).1,
   (tagger_all_or_nothing ⟨some "T1", some "T2", some "T3"⟩ ⟨none, 0⟩ 0
      ⟨some ("tok", 3600), some [⟨"cid", "a@b.com"⟩], none, none⟩
      "a@b.com" (JSField.str "diy") (by decide) (by decide) (by decide)).2
     (by decide)⟩
